import Mathlib

/-!
Shallow embedding of the core pipeline of `src/hullInvestmentApp.py`
(the Hull buy-to-let analyzer): the price parser `price_to_number`,
the comparable-property filter (`land_registry_type`, `postcode_df`),
the median computation over the filtered set, the investment
calculations (deposit, stamp duty, mortgage cost, yields, cash-on-cash
return) and the three-way buy-decision rule.

Modelling conventions:
* Python numbers (ints and floats) are modelled as exact rationals `ℚ`.
* Python `None` is `Option.none`; a missing cell of the pandas frame
  (NaN in a string column) is `Option.none` as well.
* A Python statement that raises an exception is modelled by
  `Except.error`; in particular `a / b` with `b = 0` raises
  `ZeroDivisionError`, modelled by `pyDiv` returning `none`, and
  `Series.str.contains(None, ...)` raises `TypeError`, modelled by
  `postcode_df` returning `Except.error`.
* `Series.str.contains(pat, case=False, na=False)` compiles `pat` as a
  regular expression with `re.IGNORECASE`.  `street_matches` models the
  case-insensitive literal substring semantics, which coincides with
  the source exactly when `pat` contains no regex metacharacter
  (`regexMetaFree`); theorems that assert the filter succeeds therefore
  hypothesize `regexMetaFree`.  A `None` pattern raises `TypeError`
  (modelled in `postcode_df`); a pattern that is an invalid regex,
  such as `"("`, raises `re.error`, and a valid metacharacter pattern
  matches with regex rather than literal semantics — neither is
  modelled, so no theorem here quantifies over such patterns.  Case
  folding uses `Char.toLower` (ASCII), matching Python on ASCII street
  names.
* Python `int(s)` also tolerates surrounding whitespace and underscores
  between digits; these are not modelled (no cleaned price string
  contains them, since `£` and `,` are removed and the scraper's price
  regex only emits digits, commas, a dot and the pound sign).
-/

namespace HullApp

/-! ### Price parser (`price_to_number`, lines 8-16) -/

/-- Python `s.replace(c, "")`: remove every occurrence of the character. -/
def removeAll (c : Char) (l : List Char) : List Char :=
  l.filter (fun d => d ≠ c)

/-- The cleaned string: `price_str.replace("£", "").replace(",", "")`. -/
def cleanChars (l : List Char) : List Char :=
  removeAll ',' (removeAll '£' l)

/-- Value of a digit string, most significant digit first. -/
def digitsVal (l : List Char) : Nat :=
  l.foldl (fun a c => 10 * a + (c.toNat - 48)) 0

/-- Whether every character is a decimal digit. -/
def allDigits (l : List Char) : Bool :=
  l.all (fun c => c.isDigit)

/-- Python `int(s)` on the cleaned string: an optional sign followed by a
nonempty run of digits parses; anything else raises `ValueError`
(modelled as `none`). -/
def pyIntChars : List Char → Option Int
  | [] => none
  | c :: ds =>
    if c = '-' then
      if allDigits ds && !ds.isEmpty then some (-(digitsVal ds : Int)) else none
    else if c = '+' then
      if allDigits ds && !ds.isEmpty then some ((digitsVal ds : Int)) else none
    else
      if allDigits (c :: ds) then some ((digitsVal (c :: ds) : Int)) else none

/-- Whether the cleaned string parses as a Python `int` literal. -/
def numericChars : List Char → Bool
  | [] => false
  | c :: ds =>
    if c = '-' ∨ c = '+' then allDigits ds && !ds.isEmpty
    else allDigits (c :: ds)

/-- `price_to_number(price_str)`: on a falsy argument (Python `None` or
the empty string) return `None`; otherwise strip `£` and `,` and try
`int(...)`, returning `None` on `ValueError`. -/
def price_to_number (price_str : Option String) : Option Int :=
  match price_str with
  | none => none
  | some s =>
    if s.data = [] then none
    else pyIntChars (cleanChars s.data)

/-- Well-formed currency strings of the shape `"£X,XXX"`: a pound sign
followed by digits and grouping commas, with at least one digit.  This
is the spec's notion, used to state the parser contract. -/
def wellFormedGBP (l : List Char) : Prop :=
  ∃ ds, l = '£' :: ds ∧ (∀ c ∈ ds, c.isDigit = true ∨ c = ',') ∧
    ∃ c ∈ ds, c.isDigit = true

/-! ### Comparable matcher (lines 125-154) -/

/-- One row of the Land Registry price-paid frame.  String cells may be
missing (NaN), hence `Option String`. -/
structure SaleTransaction where
  price_paid : ℚ
  deed_date : Nat
  paon : String
  street : Option String
  town : String
  postcode : String
  property_type : Option String
  deriving DecidableEq

/-- The `type_mapping` dict of lines 125-132, as a lookup function. -/
def type_mapping (t : String) : Option String :=
  if t = "Flat" then some "F"
  else if t = "Detached House" then some "D"
  else if t = "Semi-Detached House" then some "S"
  else if t = "Terraced House" then some "T"
  else if t = "End of Terrace House" then some "E"
  else if t = "Bungalow" then some "B"
  else none

/-- `land_registry_type = type_mapping.get(property_type)` (line 135):
`dict.get` returns `None` both on a `None` key and on an absent key. -/
def land_registry_type (property_type : Option String) : Option String :=
  match property_type with
  | none => none
  | some t => type_mapping t

/-- Characters that are special in Python regular expressions. -/
def regexMetaChars : List Char :=
  ['.', '^', '$', '*', '+', '?', '\x7b', '\x7d', '[', ']', '\\', '|', '(', ')']

/-- Whether pandas `str.contains` treats the pattern as a literal
substring: no character of the pattern is a regex metacharacter.  On
such patterns the literal model below agrees with the source's regex
search; theorems asserting the filter's success hypothesize this. -/
def regexMetaFree (pat : String) : Bool :=
  pat.data.all (fun c => c ∉ regexMetaChars)

/-- One row of `df["street"].str.contains(street_name, case=False, na=False)`:
a NaN street gives `False` (`na=False`); otherwise case-insensitive
containment of the pattern, faithful to the source's regex search for
`regexMetaFree` patterns (see the convention note above). -/
def street_matches (row_street : Option String) (street_name : String) : Bool :=
  match row_street with
  | none => false
  | some s =>
    decide ((street_name.data.map Char.toLower) <:+: (s.data.map Char.toLower))

/-- One row of `df["property_type"] == land_registry_type`: comparing a
cell with `None` is `False` for every cell, and a NaN cell compares
unequal to every string. -/
def type_matches (row_type : Option String) (lrt : Option String) : Bool :=
  match lrt, row_type with
  | some c, some c' => c' = c
  | _, _ => false

/-- The row predicate of the filter on lines 138-141. -/
def comparables_filter (street_name : String) (lrt : Option String)
    (df : List SaleTransaction) : List SaleTransaction :=
  df.filter (fun r => street_matches r.street street_name &&
    type_matches r.property_type lrt)

/-- `postcode_df` (lines 138-141).  When `street_name` is `None`,
`Series.str.contains(None, ...)` raises `TypeError` before any row is
considered, modelled as `Except.error`.  The `re.error` raised on an
invalid-regex pattern such as `"("` is NOT modelled (the `ok` branch
is faithful only for `regexMetaFree` patterns, which all theorems
about this branch hypothesize). -/
def postcode_df (street_name : Option String) (lrt : Option String)
    (df : List SaleTransaction) : Except String (List SaleTransaction) :=
  match street_name with
  | none => Except.error "TypeError: first argument must be string or compiled pattern"
  | some pat => Except.ok (comparables_filter pat lrt df)

/-- Ordering of rows by deed date, used by `sort_values("deed_date")`. -/
def deedLE (a b : SaleTransaction) : Prop :=
  a.deed_date ≤ b.deed_date

instance : DecidableRel deedLE := fun a b => Nat.decLe a.deed_date b.deed_date

instance : IsTotal SaleTransaction deedLE :=
  ⟨fun a b => Nat.le_total a.deed_date b.deed_date⟩

instance : IsTrans SaleTransaction deedLE :=
  ⟨fun _ _ _ h h' => Nat.le_trans h h'⟩

/-- The displayed comparable table: `postcode_df.sort_values("deed_date")`
(lines 147-150), ascending by deed date. -/
def sort_values (l : List SaleTransaction) : List SaleTransaction :=
  List.insertionSort deedLE l

/-- `postcode_df["price_paid"].median()` (line 154), on the list of
prices of the filtered rows: pandas sorts the values and returns the
middle one (odd length) or the mean of the two middle ones (even
length); the median of an empty series is NaN, modelled as `none`
(the source only takes the median of a nonempty frame). -/
def median_price (prices : List ℚ) : Option ℚ :=
  if prices = [] then none
  else
    let sorted := List.insertionSort (· ≤ ·) prices
    let n := prices.length
    if n % 2 = 1 then sorted[n / 2]?
    else do
      let a ← sorted[n / 2 - 1]?
      let b ← sorted[n / 2]?
      pure ((a + b) / 2)

/-! ### Investment calculator (lines 172, 182-198) -/

/-- `stamp_duty_percent = 5` (line 172). -/
def stamp_duty_percent : ℚ := 5

/-- `deposit = selected_price * deposit_percent / 100` (line 182). -/
def deposit (selected_price deposit_percent : ℚ) : ℚ :=
  selected_price * deposit_percent / 100

/-- `stamp_duty = selected_price * stamp_duty_percent / 100` (line 183). -/
def stamp_duty (selected_price : ℚ) : ℚ :=
  selected_price * stamp_duty_percent / 100

/-- `total_upfront = deposit + stamp_duty + legal_fees + refurbishment_cost`
(line 184). -/
def total_upfront (selected_price deposit_percent legal_fees refurbishment_cost : ℚ) : ℚ :=
  deposit selected_price deposit_percent + stamp_duty selected_price +
    legal_fees + refurbishment_cost

/-- `total_mortgage = (selected_price - deposit) / 100 * mortgage_percent`
(line 185). -/
def total_mortgage (selected_price deposit_percent mortgage_percent : ℚ) : ℚ :=
  (selected_price - deposit selected_price deposit_percent) / 100 * mortgage_percent

/-- Python division: `a / b` raises `ZeroDivisionError` when `b = 0`
(for ints and floats alike), modelled as `none`. -/
def pyDiv (a b : ℚ) : Option ℚ :=
  if b = 0 then none else some (a / b)

/-- `gross_yield = (estimated_rent * 12) / selected_price * 100` (line 188). -/
def gross_yield (estimated_rent selected_price : ℚ) : Option ℚ :=
  (pyDiv (estimated_rent * 12) selected_price).map (fun y => y * 100)

/-- `annual_operating_costs = total_mortgage + maintenance + insurance`
(line 191). -/
def annual_operating_costs (selected_price deposit_percent mortgage_percent
    maintenance insurance : ℚ) : ℚ :=
  total_mortgage selected_price deposit_percent mortgage_percent +
    maintenance + insurance

/-- `net_yield = ((estimated_rent * 12) - annual_operating_costs) / selected_price * 100`
(line 192). -/
def net_yield (estimated_rent selected_price deposit_percent mortgage_percent
    maintenance insurance : ℚ) : Option ℚ :=
  (pyDiv (estimated_rent * 12 -
      annual_operating_costs selected_price deposit_percent mortgage_percent
        maintenance insurance)
    selected_price).map (fun y => y * 100)

/-- `annual_cash_flow = (estimated_rent * 12) - (total_mortgage + maintenance + insurance)`
(lines 195-196). -/
def annual_cash_flow (estimated_rent selected_price deposit_percent mortgage_percent
    maintenance insurance : ℚ) : ℚ :=
  estimated_rent * 12 -
    (total_mortgage selected_price deposit_percent mortgage_percent +
      maintenance + insurance)

/-- `cash_invested = deposit + stamp_duty + legal_fees + refurbishment_cost`
(line 197). -/
def cash_invested (selected_price deposit_percent legal_fees refurbishment_cost : ℚ) : ℚ :=
  deposit selected_price deposit_percent + stamp_duty selected_price +
    legal_fees + refurbishment_cost

/-- `cash_on_cash_return = (annual_cash_flow / cash_invested) * 100` (line 198). -/
def cash_on_cash_return (estimated_rent selected_price deposit_percent mortgage_percent
    maintenance insurance legal_fees refurbishment_cost : ℚ) : Option ℚ :=
  (pyDiv
      (annual_cash_flow estimated_rent selected_price deposit_percent
        mortgage_percent maintenance insurance)
      (cash_invested selected_price deposit_percent legal_fees refurbishment_cost)).map
    (fun y => y * 100)

/-! ### Decision engine (lines 201-220) -/

/-- `gross_yield_threshold = 6` (line 201). -/
def gross_yield_threshold : ℚ := 6

/-- `net_yield_threshold = 5` (line 202). -/
def net_yield_threshold : ℚ := 5

/-- `ctc_yield_threshold = 9` (line 203; display-only, unused below). -/
def ctc_yield_threshold : ℚ := 9

/-- The three decision labels of lines 212-220. -/
inductive Decision where
  | goodBuy
  | notRecommended
  | proceedWithCaution
  deriving DecidableEq

/-- The `if/elif/else` chain of lines 212-220. -/
def decision (selected_price median_price gross_yield net_yield : ℚ) : Decision :=
  if selected_price ≤ median_price ∧ gross_yield ≥ gross_yield_threshold ∧
      net_yield ≥ net_yield_threshold then
    Decision.goodBuy
  else if selected_price > median_price ∧ gross_yield < gross_yield_threshold ∧
      net_yield < net_yield_threshold then
    Decision.notRecommended
  else
    Decision.proceedWithCaution

/-! ### Sample rows used in concrete evaluations -/

/-- A sample transaction row: a terraced house on Hessle Road. -/
def tx0 : SaleTransaction :=
  ⟨95000, 20200101, "12", some "Hessle Road", "Hull", "HU3 2AB", some "T"⟩

/-- A second sample transaction row, later deed date, same street/type. -/
def tx1 : SaleTransaction :=
  ⟨120000, 20210315, "14", some "Hessle Road", "Hull", "HU3 2AB", some "T"⟩

/-! ### Helper lemmas -/

/-- A digit character differs from any non-digit character. -/
lemma ne_of_isDigit {c d : Char} (h : c.isDigit = true) (hd : d.isDigit = false) :
    c ≠ d := fun e => by subst e; simp [h] at hd

/-- Parsing a nonempty all-digit string succeeds with its digit value. -/
lemma pyIntChars_digits {l : List Char} (h : allDigits l = true) (hne : l ≠ []) :
    pyIntChars l = some ((digitsVal l : Int)) := by
  match l, hne with
  | c :: ds, _ =>
    have hc : c.isDigit = true := by
      have := List.all_eq_true.mp h c (List.mem_cons_self c ds)
      simpa using this
    have h1 : c ≠ '-' := ne_of_isDigit hc (by decide)
    have h2 : c ≠ '+' := ne_of_isDigit hc (by decide)
    simp [pyIntChars, h1, h2, h]

/-- Whether parsing succeeds is exactly `numericChars`. -/
lemma pyIntChars_isSome_eq (m : List Char) :
    (pyIntChars m).isSome = numericChars m := by
  match m with
  | [] => rfl
  | c :: ds =>
    simp only [pyIntChars, numericChars]
    by_cases h1 : c = '-'
    · subst h1
      rw [if_pos rfl, if_pos (Or.inl rfl)]
      cases hb : allDigits ds && !ds.isEmpty <;> simp [hb]
    · by_cases h2 : c = '+'
      · subst h2
        rw [if_neg (by decide), if_pos rfl, if_pos (Or.inr rfl)]
        cases hb : allDigits ds && !ds.isEmpty <;> simp [hb]
      · rw [if_neg h1, if_neg h2, if_neg (not_or.mpr ⟨h1, h2⟩)]
        cases hb : allDigits (c :: ds) <;> simp [hb]

/-- A decimal point makes an all-digit check fail. -/
lemma allDigits_false_of_dot {ds : List Char} (h : '.' ∈ ds) :
    allDigits ds = false := by
  refine Bool.eq_false_iff.mpr fun hall => ?_
  have := List.all_eq_true.mp hall '.' h
  simp at this

/-- A decimal point anywhere makes `int(...)` raise. -/
lemma pyIntChars_of_dot {m : List Char} (h : '.' ∈ m) : pyIntChars m = none := by
  match m with
  | c :: ds =>
    simp only [pyIntChars]
    by_cases h1 : c = '-'
    · subst h1
      have hds : '.' ∈ ds := by
        rcases List.mem_cons.mp h with e | e
        · exact absurd e (by decide)
        · exact e
      simp [allDigits_false_of_dot hds]
    · by_cases h2 : c = '+'
      · subst h2
        have hds : '.' ∈ ds := by
          rcases List.mem_cons.mp h with e | e
          · exact absurd e (by decide)
          · exact e
        simp [h1, allDigits_false_of_dot hds]
      · simp [h1, h2, allDigits_false_of_dot h]

/-- The decimal point survives the `£`/`,` cleaning. -/
lemma dot_mem_cleanChars {l : List Char} (h : '.' ∈ l) : '.' ∈ cleanChars l :=
  List.mem_filter.mpr ⟨List.mem_filter.mpr ⟨h, by decide⟩, by decide⟩

/-- Comparing any row type with a `None` resolved code is `False`. -/
lemma type_matches_none (rt : Option String) : type_matches rt none = false := by
  cases rt <;> rfl

/-- An empty pattern matches exactly the rows with a present street. -/
lemma street_matches_empty (rs : Option String) :
    street_matches rs "" = rs.isSome := by
  cases rs with
  | none => rfl
  | some s =>
    simp only [street_matches, Option.isSome_some]
    exact decide_eq_true (by simp)

/-- Characterization of a successful street match. -/
lemma street_matches_iff (rs : Option String) (pat : String) :
    street_matches rs pat = true ↔
      ∃ s, rs = some s ∧
        (pat.data.map Char.toLower) <:+: (s.data.map Char.toLower) := by
  cases rs with
  | none => simp [street_matches]
  | some s => simp [street_matches]

/-- Characterization of a successful property-type match. -/
lemma type_matches_iff (rt lrt : Option String) :
    type_matches rt lrt = true ↔ ∃ c, lrt = some c ∧ rt = some c := by
  cases rt <;> cases lrt <;> simp [type_matches]

/-- The median is invariant under permutation of the price list. -/
lemma median_price_perm {l₁ l₂ : List ℚ} (h : l₁.Perm l₂) :
    median_price l₁ = median_price l₂ := by
  have hlen : l₁.length = l₂.length := h.length_eq
  have hsort : List.insertionSort (· ≤ ·) l₁ = List.insertionSort (· ≤ ·) l₂ :=
    List.eq_of_perm_of_sorted
      (((List.perm_insertionSort _ l₁).trans h).trans
        (List.perm_insertionSort _ l₂).symm)
      (List.sorted_insertionSort _ l₁) (List.sorted_insertionSort _ l₂)
  by_cases h1 : l₁ = []
  · subst h1
    rw [h.nil_eq.symm]
  · have h2 : l₂ ≠ [] := fun e => h1 (by rw [e] at h; exact h.eq_nil)
    simp only [median_price]
    rw [if_neg h1, if_neg h2, hlen, hsort]

/-! ### Claim theorems -/

/-- C1: for every price, deposit percent and mortgage interest percent,
the yearly mortgage cost is computed exactly as
`(price - deposit) / 100 * mortgage_percent`, with
`deposit = price * deposit_percent / 100`. -/
theorem c1_total_mortgage_formula (price deposit_percent mortgage_percent : ℚ) :
    total_mortgage price deposit_percent mortgage_percent =
      (price - deposit price deposit_percent) / 100 * mortgage_percent ∧
    deposit price deposit_percent = price * deposit_percent / 100 :=
  ⟨rfl, rfl⟩

/-- C5 counterexample: at price 100000, deposit percent 25 and rate 5.5,
the implemented mortgage cost is 4125, which is NOT 100 times the
conventional value `(price - deposit) * (rate / 100)` — that product is
also 4125, and 100 times it is 412500. -/
theorem c5_counterexample_not_100x :
    total_mortgage 100000 25 (11 / 2) = 4125 ∧
    100 * ((100000 - deposit 100000 25) * ((11 / 2) / 100)) = 412500 ∧
    total_mortgage 100000 25 (11 / 2) ≠
      100 * ((100000 - deposit 100000 25) * ((11 / 2) / 100)) := by
  refine ⟨?_, ?_, ?_⟩ <;> norm_num [total_mortgage, deposit]

/-- C5 amended: the implemented yearly mortgage cost
`(price - deposit) / 100 * rate` is equal to the conventional value
`(price - deposit) * (rate / 100)` for every price, deposit percent and
rate — the two formulas are algebraically identical, not a factor of
100 apart. -/
theorem c5_amended_formulas_equal (price deposit_percent mortgage_percent : ℚ) :
    total_mortgage price deposit_percent mortgage_percent =
      (price - deposit price deposit_percent) * (mortgage_percent / 100) := by
  unfold total_mortgage
  ring

/-- C3: the decision rules are evaluated in order with the first match
winning: GoodBuy when `price ≤ median ∧ gross ≥ 6 ∧ net ≥ 5`,
NotRecommended when `price > median ∧ gross < 6 ∧ net < 5`, and
ProceedWithCaution exactly when neither condition holds. -/
theorem c3_decision_rules (selected_price median_price gross_yield net_yield : ℚ) :
    (selected_price ≤ median_price → gross_yield ≥ 6 → net_yield ≥ 5 →
      decision selected_price median_price gross_yield net_yield = Decision.goodBuy) ∧
    (selected_price > median_price → gross_yield < 6 → net_yield < 5 →
      decision selected_price median_price gross_yield net_yield = Decision.notRecommended) ∧
    (¬(selected_price ≤ median_price ∧ gross_yield ≥ 6 ∧ net_yield ≥ 5) →
      ¬(selected_price > median_price ∧ gross_yield < 6 ∧ net_yield < 5) →
      decision selected_price median_price gross_yield net_yield =
        Decision.proceedWithCaution) := by
  simp only [decision, gross_yield_threshold, net_yield_threshold]
  refine ⟨fun h1 h2 h3 => ?_, fun h1 h2 h3 => ?_, fun h1 h2 => ?_⟩
  · rw [if_pos ⟨h1, h2, h3⟩]
  · rw [if_neg (fun hh => absurd hh.1 (not_le.mpr h1)), if_pos ⟨h1, h2, h3⟩]
  · rw [if_neg h1, if_neg h2]

/-- C3 witness: concrete instances of each of the three rules. -/
theorem c3_decision_rules_witness :
    decision 100000 120000 7 6 = Decision.goodBuy ∧
    decision 130000 120000 5 4 = Decision.notRecommended ∧
    decision 100000 120000 5 4 = Decision.proceedWithCaution :=
  ⟨(c3_decision_rules 100000 120000 7 6).1 (by norm_num) (by norm_num) (by norm_num),
   (c3_decision_rules 130000 120000 5 4).2.1 (by norm_num) (by norm_num) (by norm_num),
   (c3_decision_rules 100000 120000 5 4).2.2 (by norm_num) (by norm_num)⟩

/-- C4: at price 0 the code evaluates `(rent*12)/0` and `.../0`, i.e.
raises `ZeroDivisionError` (modelled by `none`) for gross yield and net
yield; with price 0 and deposit percent 0 the cash invested is 0 and
the cash-on-cash division raises likewise.  The spec requires these to
be reported as not-available instead of crashing; the code has no guard. -/
theorem c4_zero_division_raises :
    gross_yield 600 0 = none ∧
    net_yield 600 0 0 (11 / 2) 800 170 = none ∧
    cash_invested 0 0 0 0 = 0 ∧
    cash_on_cash_return 600 0 0 (11 / 2) 800 170 0 0 = none := by
  have hci : cash_invested 0 0 0 0 = 0 := by
    norm_num [cash_invested, deposit, stamp_duty]
  refine ⟨rfl, rfl, hci, ?_⟩
  simp [cash_on_cash_return, pyDiv, hci]

/-- C7: on every well-formed `"£X,XXX"` string the parser returns the
integer made of the string's digits with the pound sign and commas
removed; on the empty string and on `None` it returns `None`; and on a
cleaned remainder that is not a Python integer literal it returns
`None` instead of raising. -/
theorem c7_price_parser_contract :
    (∀ l : List Char, wellFormedGBP l →
      price_to_number (some (String.mk l)) =
        some ((digitsVal (l.filter (fun c => c.isDigit)) : Int))) ∧
    price_to_number (some "") = none ∧
    price_to_number none = none ∧
    (∀ l : List Char, numericChars (cleanChars l) = false →
      price_to_number (some (String.mk l)) = none) := by
  refine ⟨?_, rfl, rfl, ?_⟩
  · rintro l ⟨ds, rfl, hall, c, hc, hcd⟩
    have hclean : cleanChars ('£' :: ds) = ds.filter (fun c => c.isDigit) := by
      unfold cleanChars removeAll
      rw [List.filter_cons_of_neg (by decide)]
      have e1 : List.filter (fun d => decide (d ≠ '£')) ds = ds :=
        List.filter_eq_self.mpr (fun a ha => by
          rcases hall a ha with h | h
          · exact decide_eq_true (ne_of_isDigit h (by decide))
          · subst h; decide)
      rw [e1]
      exact List.filter_congr (fun a ha => by
        rcases hall a ha with h | h
        · rw [h]; exact decide_eq_true (ne_of_isDigit h (by decide))
        · subst h; decide)
    have hdig : allDigits (ds.filter (fun c => c.isDigit)) = true :=
      List.all_eq_true.mpr (fun x hx => (List.mem_filter.mp hx).2)
    have hne : ds.filter (fun c => c.isDigit) ≠ [] := by
      intro e
      have hmem : c ∈ ds.filter (fun c => c.isDigit) :=
        List.mem_filter.mpr ⟨hc, hcd⟩
      rw [e] at hmem
      exact absurd hmem (List.not_mem_nil c)
    have hstep : price_to_number (some (String.mk ('£' :: ds))) =
        pyIntChars (cleanChars ('£' :: ds)) := by
      simp only [price_to_number]
      rw [if_neg (by simp)]
    rw [hstep, hclean, pyIntChars_digits hdig hne,
      List.filter_cons_of_neg (by decide)]
  · intro l hnum
    by_cases hl : l = []
    · subst hl; rfl
    · have hstep : price_to_number (some (String.mk l)) =
          pyIntChars (cleanChars l) := by
        simp only [price_to_number]
        rw [if_neg (by simpa using hl)]
      rw [hstep]
      cases ho : pyIntChars (cleanChars l) with
      | none => rfl
      | some v =>
        have : (pyIntChars (cleanChars l)).isSome = true := by rw [ho]; rfl
        rw [pyIntChars_isSome_eq, hnum] at this
        cases this

/-- C7 witness: `"£1,234"` parses to 1234 and a non-numeric remainder
parses to `None`. -/
theorem c7_price_parser_contract_witness :
    price_to_number (some (String.mk ['£', '1', ',', '2', '3', '4'])) = some 1234 ∧
    price_to_number (some (String.mk ['a', 'b', 'c'])) = none :=
  ⟨(c7_price_parser_contract.1 ['£', '1', ',', '2', '3', '4']
      ⟨['1', ',', '2', '3', '4'], rfl, by decide, by decide⟩).trans (by decide),
   c7_price_parser_contract.2.2.2 ['a', 'b', 'c'] (by decide)⟩

/-- C6 counterexample: on `"£1,234.56"` the parser does NOT truncate to
1234; Python `int("1234.56")` raises `ValueError` and the function
returns `None`. -/
theorem c6_counterexample_fraction_not_truncated :
    price_to_number (some "£1,234.56") = none ∧
    price_to_number (some "£1,234.56") ≠ some 1234 := by
  refine ⟨by decide, by decide⟩

/-- C6 amended: for every currency string containing a decimal point,
the parser returns `None` (the `ValueError` path of `int(...)`) rather
than truncating to the integral part. -/
theorem c6_amended_fraction_gives_none (l : List Char) (h : '.' ∈ l) :
    price_to_number (some (String.mk l)) = none := by
  have hne : l ≠ [] := by rintro rfl; exact absurd h (List.not_mem_nil '.')
  simp only [price_to_number]
  rw [if_neg (by simpa using hne)]
  exact pyIntChars_of_dot (dot_mem_cleanChars h)

/-- C6 amended witness: the fractional string `"£1,234.56"`. -/
theorem c6_amended_fraction_gives_none_witness :
    price_to_number (some (String.mk
      ['£', '1', ',', '2', '3', '4', '.', '5', '6'])) = none :=
  c6_amended_fraction_gives_none
    ['£', '1', ',', '2', '3', '4', '.', '5', '6'] (by decide)

/-- C2 counterexample: with a null listing street the filter raises a
`TypeError` (from `Series.str.contains(None, ...)`) instead of
excluding rows: on a one-row repository the result is an error, not
the empty comparable set the claim requires. -/
theorem c2_counterexample_null_street_raises :
    postcode_df none (some "T") [tx0] =
      Except.error "TypeError: first argument must be string or compiled pattern" ∧
    postcode_df none (some "T") [tx0] ≠ Except.ok [] :=
  ⟨rfl, by simp [postcode_df]⟩

/-- C2 amended: for every listing whose street is non-null and free of
regex metacharacters (so that `str.contains` matches it literally),
the comparable set is computed without failure and contains exactly
the repository rows whose street is present and contains the listing
street case-insensitively and whose type code equals the resolved
code; rows with a missing street are excluded.  A null listing street
instead raises a `TypeError` (the C2 counterexample), and a
metacharacter street is matched as a regex or raises `re.error`,
outside this theorem's hypothesis. -/
theorem c2_amended_comparable_set (pat : String) (lrt : Option String)
    (df : List SaleTransaction) (r : SaleTransaction)
    (_hpat : regexMetaFree pat = true) :
    ∃ comps, postcode_df (some pat) lrt df = Except.ok comps ∧
      (r ∈ comps ↔ r ∈ df ∧
        (∃ s, r.street = some s ∧
          (pat.data.map Char.toLower) <:+: (s.data.map Char.toLower)) ∧
        (∃ c, lrt = some c ∧ r.property_type = some c)) := by
  refine ⟨comparables_filter pat lrt df, rfl, ?_⟩
  simp only [comparables_filter, List.mem_filter, Bool.and_eq_true,
    street_matches_iff, type_matches_iff]

/-- C2 amended witness: on a one-row repository, the matching row is a
member of the computed comparable set, with the literal-pattern
hypothesis discharged on the concrete street "hessle". -/
theorem c2_amended_comparable_set_witness :
    ∃ comps, postcode_df (some "hessle") (some "T") [tx0] = Except.ok comps ∧
      (tx0 ∈ comps ↔ tx0 ∈ [tx0] ∧
        (∃ s, tx0.street = some s ∧
          ("hessle".data.map Char.toLower) <:+: (s.data.map Char.toLower)) ∧
        (∃ c, (some "T" : Option String) = some c ∧ tx0.property_type = some c)) :=
  c2_amended_comparable_set "hessle" (some "T") [tx0] tx0 (by decide)

/-- C8 counterexample: a listing with an absent property type AND an
absent street makes the code raise a `TypeError` on the street filter,
so "empty match set and no crash" does not hold for every listing with
an absent/unmapped type. -/
theorem c8_counterexample_null_street_crashes :
    postcode_df none (land_registry_type none) [tx0] =
      Except.error "TypeError: first argument must be string or compiled pattern" ∧
    postcode_df none (land_registry_type none) [tx0] ≠ Except.ok [] :=
  ⟨rfl, by simp [postcode_df]⟩

/-- C8 amended: for every listing with a non-null street free of regex
metacharacters whose property type is absent or not one of the six
mapped labels, the resolved code is `None`, the comparable match set
is empty, and no error is raised.  A null street raises `TypeError`
(the C8 counterexample) and an invalid-regex street raises `re.error`
before the type comparison, outside this theorem's hypothesis. -/
theorem c8_amended_unmapped_type_empty (pat : String) (pt : Option String)
    (df : List SaleTransaction)
    (_hpat : regexMetaFree pat = true)
    (h : pt = none ∨ ∃ t, pt = some t ∧ t ∉ ["Flat", "Detached House",
      "Semi-Detached House", "Terraced House", "End of Terrace House",
      "Bungalow"]) :
    land_registry_type pt = none ∧
    postcode_df (some pat) (land_registry_type pt) df = Except.ok [] := by
  have hl : land_registry_type pt = none := by
    rcases h with h | ⟨t, hpt, hnot⟩
    · subst h; rfl
    · subst hpt
      simp only [List.mem_cons, not_or] at hnot
      simp [land_registry_type, type_mapping, hnot.1, hnot.2.1, hnot.2.2.1,
        hnot.2.2.2.1, hnot.2.2.2.2.1, hnot.2.2.2.2.2.1]
  refine ⟨hl, ?_⟩
  rw [hl]
  simp only [postcode_df, comparables_filter]
  refine congrArg Except.ok ?_
  rw [List.filter_eq_nil_iff]
  intro a _
  simp [type_matches_none]

/-- C8 amended witness: an unmapped label ("Cottage", the title-cased
fallback) with a present street gives the empty comparable set. -/
theorem c8_amended_unmapped_type_empty_witness :
    land_registry_type (some "Cottage") = none ∧
    postcode_df (some "Hessle") (land_registry_type (some "Cottage")) [tx0] =
      Except.ok [] :=
  c8_amended_unmapped_type_empty "Hessle" (some "Cottage") [tx0]
    (by decide) (Or.inr ⟨"Cottage", rfl, by decide⟩)

/-- C9: the median of the comparable prices is invariant under any
permutation of the repository rows, the displayed comparable sequence
is sorted ascending by deed date, and that sequence is a permutation
of (exactly the rows of) the filtered set. -/
theorem c9_median_order_invariance (pat : String) (lrt : Option String)
    (df df' : List SaleTransaction) (h : df.Perm df') :
    median_price ((comparables_filter pat lrt df).map (fun r => r.price_paid)) =
      median_price ((comparables_filter pat lrt df').map (fun r => r.price_paid)) ∧
    List.Sorted deedLE (sort_values (comparables_filter pat lrt df)) ∧
    (sort_values (comparables_filter pat lrt df)).Perm
      (comparables_filter pat lrt df) :=
  ⟨median_price_perm ((h.filter _).map _),
   List.sorted_insertionSort deedLE _,
   List.perm_insertionSort deedLE _⟩

/-- C9 witness: swapping the two rows of a concrete repository leaves
the median unchanged, and the displayed sequence is date-sorted. -/
theorem c9_median_order_invariance_witness :
    median_price ((comparables_filter "hessle" (some "T") [tx0, tx1]).map
        (fun r => r.price_paid)) =
      median_price ((comparables_filter "hessle" (some "T") [tx1, tx0]).map
        (fun r => r.price_paid)) ∧
    List.Sorted deedLE (sort_values (comparables_filter "hessle" (some "T") [tx0, tx1])) ∧
    (sort_values (comparables_filter "hessle" (some "T") [tx0, tx1])).Perm
      (comparables_filter "hessle" (some "T") [tx0, tx1]) :=
  c9_median_order_invariance "hessle" (some "T") [tx0, tx1] [tx1, tx0]
    (List.Perm.swap tx1 tx0 [])

/-- C10: when the listing street is the empty string and the property
type resolves to a code, the filter keeps exactly the rows with a
present street and that type code — the empty pattern matches every
non-null street. -/
theorem c10_empty_street_matches_type (pt : Option String) (c : String)
    (df : List SaleTransaction) (h : land_registry_type pt = some c) :
    postcode_df (some "") (land_registry_type pt) df =
      Except.ok (df.filter (fun r => r.street.isSome &&
        type_matches r.property_type (some c))) := by
  rw [h]
  simp only [postcode_df, comparables_filter]
  refine congrArg Except.ok ?_
  exact List.filter_congr (fun r _ => by rw [street_matches_empty])

/-- C10 witness: empty street pattern with a resolved "Flat" code on a
one-row repository of type "T" keeps no row; the hypothesis is
discharged by computing the mapping. -/
theorem c10_empty_street_matches_type_witness :
    postcode_df (some "") (land_registry_type (some "Flat")) [tx0] =
      Except.ok (List.filter (fun r => r.street.isSome &&
        type_matches r.property_type (some "F")) [tx0]) :=
  c10_empty_street_matches_type (some "Flat") "F" [tx0] rfl

end HullApp
